import Mathlib

/-!
Shallow embedding of the online decoding engine of `pycnbi/decoder/decoder.py`
(classes `BCIDecoder` and `BCIDecoderDaemon`), together with theorems checking
the natural-language specification of the repository against that code.

Modelling conventions:
* Timestamps and signal values are rationals (`ℚ`); every arithmetic step of
  the source is mirrored exactly (`int()` truncation, the hard-coded `1.0`
  eviction threshold, ...).
* A feature frame (`psd`, channels × frequency bins) is a `List (List ℚ)`;
  `reshape((1, -1))` flattening is `List.flatten` (row-major, as in numpy).
* `numpy.searchsorted(a, v)` (left side) on a sorted list is the number of
  elements strictly below `v`; all call sites in the source pass a sorted
  buffer, which the stream source's strictly increasing timestamps guarantee.
* The multiprocessing flags (`mp.Value('i', _)`) hold machine integers that
  the source only ever sets to 0 or 1; they are modelled as `ℕ`.
* The pseudo-random draw `random.uniform(0.0, 1.0)` (which equals
  `0.0 + (1.0 - 0.0) * random.random()`, hence lies in `[0, 1)`) and the
  opaque collaborators (classifier `predict_proba`, PSD extractor, stream
  receiver window, `trigger_def` key table) enter as explicit parameters.
* Python exceptions are an explicit error type: fallible paths return
  `Except PyError _`.
-/

namespace PyCNBI

/-- Python exceptions that the embedded code paths can raise.  The constructor
`bufferEmpty` does not correspond to anything the source can raise: it is the
distinct "BufferEmpty" condition that the specification postulates for
`latestFeatureFrame`, kept here only so that the spec's claim can be stated
and compared against what the code actually does. -/
inductive PyError where
  | runtimeError
  | indexError
  | zeroDivisionError
  | bufferEmpty
deriving DecidableEq

/-- A feature frame (`psd`): channels × frequency-bins matrix of rationals. -/
abbrev Frame := List (List ℚ)

/-- `numpy.searchsorted(a, v)` with the default left side, for a sorted list:
the index of the first element `≥ v`, i.e. the count of elements `< v`. -/
def searchsorted (a : List ℚ) (v : ℚ) : ℕ :=
  a.countP (fun x => decide (x < v))

/-- The rolling buffers owned by `BCIDecoder`: `self.psd_buffer` (one frame
per completed cycle) and the parallel `self.ts_buffer` of leading window
timestamps. -/
structure BufState where
  psd_buffer : List Frame
  ts_buffer : List ℚ
deriving DecidableEq

/-- One buffer update of `BCIDecoder.get_prob` (decoder.py lines 218-226):
append the new frame and its leading timestamp `ts[0]`, then, if the span
exceeds `self.buffer_sec`, trim from the front at
`np.searchsorted(self.ts_buffer, ts[0] - 1.0)`.  The `1.0` is hard-coded in
the source, independent of `buffer_sec`. -/
def bufferUpdate (buffer_sec : ℚ) (frame : Frame) (ts0 : ℚ) (s : BufState) : BufState :=
  if ts0 - (s.ts_buffer ++ [ts0]).headD 0 > buffer_sec then
    ⟨(s.psd_buffer ++ [frame]).drop (searchsorted (s.ts_buffer ++ [ts0]) (ts0 - 1)),
     (s.ts_buffer ++ [ts0]).drop (searchsorted (s.ts_buffer ++ [ts0]) (ts0 - 1))⟩
  else
    ⟨s.psd_buffer ++ [frame], s.ts_buffer ++ [ts0]⟩

/-- Run a sequence of decode cycles, each contributing one feature frame and
its leading timestamp, starting from the freshly constructed empty buffers
(`np.zeros((0, _, _))` and `[]`). -/
def runCycles (buffer_sec : ℚ) (cycles : List (Frame × ℚ)) : BufState :=
  cycles.foldl (fun s c => bufferUpdate buffer_sec c.1 c.2 s) ⟨[], []⟩

/-- `BCIDecoder.get_psd`: `self.psd_buffer[-1].reshape((1, -1))`.  Negative
indexing of the empty buffer raises a plain `IndexError`; otherwise the last
frame is returned flattened to a single row. -/
def decoderGetPsd (s : BufState) : Except PyError (List ℚ) :=
  match s.psd_buffer.getLast? with
  | Option.none => .error .indexError
  | Option.some f => .ok f.flatten

/-- The fake branch of `BCIDecoder.get_prob` (decoder.py lines 190-197):
`probs = [random.uniform(0.0, 1.0)]`, then `(1 - probs[0]) / (len(labels)-1)`
appended once per remaining label.  The pseudo-random draw is the parameter
`r`. -/
def fakeGetProb (labels : List ℤ) (r : ℚ) : List ℚ :=
  let p_others := (1 - r) / ((labels.length : ℚ) - 1)
  r :: List.replicate (labels.length - 1) p_others

/-- Python `int()` on a rational: truncation toward zero. -/
def pyInt (x : ℚ) : ℤ :=
  if 0 ≤ x then ⌊x⌋ else ⌈x⌉

/-- The model parameters involved in the load-time frame-count check. -/
structure ModelFile where
  sfreq : ℚ
  w_seconds : ℚ
  w_frames : ℤ
deriving DecidableEq

/-- The load-time check of `BCIDecoder.__init__` (decoder.py lines 105-106):
`if not int(self.sfreq * self.w_seconds) == self.w_frames: raise
RuntimeError(...)`. -/
def decoderLoadCheck (m : ModelFile) : Except PyError Unit :=
  if pyInt (m.sfreq * m.w_seconds) = m.w_frames then .ok () else .error .runtimeError

/-- Modelled from the spec (not from the source): the acceptance predicate the
specification states for the load-time check, using rounding instead of the
source's truncation: `round(sampling_rate * window_seconds) == window_frames`. -/
def specRoundCheckAccepts (m : ModelFile) : Bool :=
  round (m.sfreq * m.w_seconds) = m.w_frames

/-- The shared slots of `BCIDecoderDaemon.reset`: the probability array
`self.probs`, the already-read flag `self.pread`, the running flag, the
feature-frame request flag `self.return_psd`, and the shared PSD slot
(`None` in fake mode). -/
structure SharedState where
  probs : List ℚ
  pread : ℕ
  running : ℕ
  return_psd : ℕ
  psd : Option (List ℚ)
deriving DecidableEq

/-- The two writes the worker performs for the probability slot each loop
iteration (decoder.py lines 354-355): `probs[:] = decoder.get_prob()` then
`pread.value = 0`. -/
def workerWriteProb (p : List ℚ) (s : SharedState) : SharedState :=
  { s with probs := p, pread := 0 }

/-- One iteration of the worker loop body of `BCIDecoderDaemon.daemon`
(decoder.py lines 353-366): publish the freshly decoded probabilities and
clear `pread`; then, only when not in fake mode, service a pending
feature-frame request by copying the latest flattened frame `lastPsd` into
the shared slot and clearing `return_psd`.  In fake mode the request flag is
never touched. -/
def daemonLoopBody (fake : Bool) (p : List ℚ) (lastPsd : Option (List ℚ))
    (s : SharedState) : SharedState :=
  let s1 := workerWriteProb p s
  if fake = false then
    if s1.return_psd = 1 then { s1 with psd := lastPsd, return_psd := 0 }
    else s1
  else s1

/-- `BCIDecoderDaemon.get_prob`: set `pread` to 1 and return a snapshot of the
probability slot. -/
def daemonGetProb (s : SharedState) : List ℚ × SharedState :=
  (s.probs, { s with pread := 1 })

/-- `BCIDecoderDaemon.get_prob_unread`: if `pread == 0` delegate to
`get_prob`, otherwise return `None` and leave the state untouched. -/
def daemonGetProbUnread (s : SharedState) : Option (List ℚ) × SharedState :=
  if s.pread = 0 then
    let r := daemonGetProb s
    (Option.some r.1, r.2)
  else
    (Option.none, s)

/-- `BCIDecoderDaemon.get_psd` sets `return_psd := 1` and then busy-polls
until the worker clears it.  The poll terminates exactly when some number of
worker iterations brings the request flag back to 0. -/
def daemonGetPsdTerminates (step : SharedState → SharedState) (s : SharedState) : Prop :=
  ∃ n : ℕ, (step^[n] { s with return_psd := 1 }).return_psd = 0

/-- Reader/worker events touching the probability slot. -/
inductive RWEvent where
  | write (p : List ℚ)
  | readProb
  | readUnread
deriving DecidableEq

/-- State effect of one probability-slot event: a worker write
(lines 354-355), a reader `get_prob`, or a reader `get_prob_unread`. -/
def applyEvent (s : SharedState) (e : RWEvent) : SharedState :=
  match e with
  | .write p => workerWriteProb p s
  | .readProb => (daemonGetProb s).2
  | .readUnread => (daemonGetProbUnread s).2

/-- Ghost history flag: has the probability-slot value been consumed (via
`get_prob`, directly or through `get_prob_unread`) since the worker's last
write?  A write resets it; either read operation leaves the value consumed. -/
def consumedStep (_c : Bool) (e : RWEvent) : Bool :=
  match e with
  | .write _ => false
  | .readProb => true
  | .readUnread => true

/-- Fold a sequence of probability-slot events over the shared state. -/
def runEvents (s : SharedState) (es : List RWEvent) : SharedState :=
  es.foldl applyEvent s

/-- Fold the same event sequence over the ghost consumed flag. -/
def runConsumed (c : Bool) (es : List RWEvent) : Bool :=
  es.foldl consumedStep c

/-- Daemon-level state: the label codes, the fake flag, the PSD slot size of
the active model, the shared slots, whether the worker process has been
started, and the lines printed so far. -/
structure DaemonState where
  labels : List ℤ
  fake : Bool
  psd_size : ℕ
  shared : SharedState
  procStarted : Bool
  log : List String
deriving DecidableEq

/-- `BCIDecoderDaemon.reset`: reallocate the shared slots.  The probability
array is `[1.0 / len(self.labels)] * len(self.labels)` — a `ZeroDivisionError`
when the label list is empty; `pread` starts at 1, `running` and `return_psd`
at 0; the PSD slot is a zero array of the model's PSD size, or `None` in fake
mode. -/
def daemonReset (labels : List ℤ) (fake : Bool) (psd_size : ℕ) :
    Except PyError SharedState :=
  if labels.length = 0 then .error .zeroDivisionError
  else
    .ok { probs := List.replicate labels.length (1 / (labels.length : ℚ))
          pread := 1
          running := 0
          return_psd := 0
          psd := if fake then Option.none else Option.some (List.replicate psd_size 0) }

/-- `BCIDecoderDaemon.start`: if the running flag is already set, print an
error and return with nothing else changed; otherwise start the worker
process (whose first action, decoder.py line 352, is to set the running flag)
and print the start message. -/
def daemonStart (s : DaemonState) : DaemonState :=
  if s.shared.running = 1 then
    { s with log := s.log ++ ["ERROR: Cannot start. Daemon already running."] }
  else
    { s with shared := { s.shared with running := 1 }
             procStarted := true
             log := s.log ++ ["Decoder daemon started."] }

/-- `BCIDecoderDaemon.stop`: if the running flag is already clear, print a
warning and return; otherwise clear the flag, join the worker, and run
`reset`, which reallocates the shared slots. -/
def daemonStop (s : DaemonState) : Except PyError DaemonState :=
  if s.shared.running = 0 then
    .ok { s with log := s.log ++ ["Warning: Decoder already stopped."] }
  else
    match daemonReset s.labels s.fake s.psd_size with
    | .error e => .error e
    | .ok sh =>
        .ok { s with shared := sh
                     procStarted := false
                     log := s.log ++ ["Decoder daemon stopped."] }

/-- `BCIDecoderDaemon.is_running`: the raw value of the running flag. -/
def is_running (s : DaemonState) : ℕ :=
  s.shared.running

/-- The fake-mode branch of `BCIDecoderDaemon.__init__` (decoder.py lines
292-306): reject `fake_dirs` when it is not a list (`Option.none` models any
non-list argument, including the default `None`), translate the direction
names through the opaque `trigger_def` key table `by_key`, then run
`reset()` followed by `start()`.  No length validation is performed on the
list. -/
def daemonInitFake (by_key : String → ℤ) (fake_dirs : Option (List String)) :
    Except PyError DaemonState :=
  match fake_dirs with
  | Option.none => .error .runtimeError
  | Option.some dirs =>
      let labels := dirs.map by_key
      match daemonReset labels true 0 with
      | .error e => .error e
      | .ok sh =>
          .ok (daemonStart { labels := labels
                             fake := true
                             psd_size := 0
                             shared := sh
                             procStarted := false
                             log := [] })

/-- `BCIDecoder.get_prob` as one function of its inputs: in fake mode the
biased pseudo-random distribution (no buffer activity); in the real path the
window is preprocessed and transformed into `frame` by the opaque
collaborators, the buffers are updated (with eviction), and the classifier
`classify` is applied to the flattened new frame
(`np.concatenate(psd[0]).reshape(1, -1)`). -/
def decoderGetProb (fake : Bool) (labels : List ℤ) (r : ℚ) (frame : Frame)
    (ts0 : ℚ) (classify : List ℚ → List ℚ) (buffer_sec : ℚ) (s : BufState) :
    List ℚ × BufState :=
  if fake then (fakeGetProb labels r, s)
  else
    let s1 := bufferUpdate buffer_sec frame ts0 s
    (classify frame.flatten, s1)

/-- `BCIDecoder.get_prob_unread` (decoder.py lines 234-235): literally
`return self.get_prob()`. -/
def decoderGetProbUnread (fake : Bool) (labels : List ℤ) (r : ℚ) (frame : Frame)
    (ts0 : ℚ) (classify : List ℚ → List ℚ) (buffer_sec : ℚ) (s : BufState) :
    List ℚ × BufState :=
  decoderGetProb fake labels r frame ts0 classify buffer_sec s

/-- A concrete daemon state used to instantiate theorems with hypotheses. -/
def sampleDaemonState : DaemonState :=
  { labels := [11, 9]
    fake := true
    psd_size := 0
    shared := { probs := [1/2, 1/2], pread := 1, running := 0, return_psd := 0,
                psd := Option.none }
    procStarted := false
    log := [] }

/- ------------------------------------------------------------------ -/
/- Helper lemmas -/
/- ------------------------------------------------------------------ -/

/-- A sorted search over a buffer never counts past an appended element that
does not satisfy the bound. -/
theorem searchsorted_concat_le (l : List ℚ) (a v : ℚ) (h : ¬ a < v) :
    searchsorted (l ++ [a]) v ≤ l.length := by
  unfold searchsorted
  rw [List.countP_append]
  have h1 : List.countP (fun x => decide (x < v)) [a] = 0 := by
    simp [List.countP_cons, h]
  rw [h1, Nat.add_zero]
  exact List.countP_le_length _

/-- Dropping at most the original length from a one-element extension keeps
the appended last element. -/
theorem getLast?_drop_concat {α : Type} (l : List α) (a : α) (n : ℕ) (h : n ≤ l.length) :
    ((l ++ [a]).drop n).getLast? = Option.some a := by
  rw [List.drop_append_of_le_length h]
  exact List.getLast?_concat _

/-- Eviction never removes the frame appended by the current cycle: the new
frame is always the last buffered one afterwards. -/
theorem bufferUpdate_getLast (buffer_sec ts0 : ℚ) (fr : Frame) (s : BufState)
    (h : s.psd_buffer.length = s.ts_buffer.length) :
    (bufferUpdate buffer_sec fr ts0 s).psd_buffer.getLast? = Option.some fr := by
  unfold bufferUpdate
  split
  · apply getLast?_drop_concat
    rw [h]
    exact searchsorted_concat_le _ _ _ (not_lt.mpr (by linarith))
  · exact List.getLast?_concat _

/-- In fake mode one worker iteration leaves the feature-request flag
untouched. -/
theorem daemonLoopBody_fake_return_psd (p : List ℚ) (d : Option (List ℚ)) (s : SharedState) :
    (daemonLoopBody true p d s).return_psd = s.return_psd := rfl

/-- In fake mode any number of worker iterations leaves the feature-request
flag untouched. -/
theorem daemonLoopBody_fake_iterate_return_psd (p : List ℚ) (d : Option (List ℚ)) (n : ℕ)
    (s : SharedState) :
    ((daemonLoopBody true p d)^[n] s).return_psd = s.return_psd := by
  induction n generalizing s with
  | zero => rfl
  | succ n ih =>
      rw [Function.iterate_succ_apply, ih]
      exact daemonLoopBody_fake_return_psd p d s

/-- The `pread` flag tracks exactly the ghost consumed-since-last-write flag
along any sequence of probability-slot events. -/
theorem pread_runEvents (es : List RWEvent) :
    ∀ (s : SharedState) (c : Bool), s.pread = (if c then 1 else 0) →
      (runEvents s es).pread = if runConsumed c es then 1 else 0 := by
  induction es with
  | nil => intro s c h; exact h
  | cons e t ih =>
      intro s c h
      have h1 : (applyEvent s e).pread = if consumedStep c e then 1 else 0 := by
        cases e with
        | write p => simp [applyEvent, workerWriteProb, consumedStep]
        | readProb => simp [applyEvent, daemonGetProb, consumedStep]
        | readUnread =>
            by_cases hp : s.pread = 0
            · simp [applyEvent, daemonGetProbUnread, hp, daemonGetProb, consumedStep]
            · have hc : c = true := by
                cases c with
                | true => rfl
                | false => simp at h; exact absurd h hp
              simp [applyEvent, daemonGetProbUnread, hp, consumedStep, hc, h]
      exact ih (applyEvent s e) (consumedStep c e) h1

/-- `stop()` always succeeds when the label list is nonempty, leaves the
running flag cleared, and preserves the label list. -/
theorem daemonStop_ok (s : DaemonState) (h : s.labels ≠ []) :
    ∃ t, daemonStop s = .ok t ∧ is_running t = 0 ∧ t.labels = s.labels := by
  by_cases hr : s.shared.running = 0
  · refine ⟨{ s with log := s.log ++ ["Warning: Decoder already stopped."] }, ?_, hr, rfl⟩
    rw [daemonStop, if_pos hr]
  · have hl : ¬ s.labels.length = 0 := by
      simpa [List.length_eq_zero] using h
    refine ⟨{ s with
        shared := { probs := List.replicate s.labels.length (1 / (s.labels.length : ℚ)),
                    pread := 1, running := 0, return_psd := 0,
                    psd := if s.fake then Option.none
                           else Option.some (List.replicate s.psd_size 0) },
        procStarted := false, log := s.log ++ ["Decoder daemon stopped."] }, ?_, rfl, rfl⟩
    rw [daemonStop, if_neg hr, daemonReset, if_neg hl]

/- ------------------------------------------------------------------ -/
/- Claim theorems -/
/- ------------------------------------------------------------------ -/

/-- C1: the claim states that after every `cycle()` the feature-frame buffer
satisfies `newest_timestamp - oldest_timestamp <= buffer_duration_seconds`
for every configured buffer duration.  The code violates this: the eviction
search threshold is the hard-coded `ts[0] - 1.0`, so with
`buffer_duration_seconds = 0.5` and strictly increasing leading timestamps
`[0, 0.6]` the second cycle enters the eviction branch but trims nothing,
leaving a span of `0.6 > 0.5`. -/
theorem C1_bug_eval :
    ((0 : ℚ) < 3/5)
    ∧ ((runCycles (1/2) [([[1]], 0), ([[2]], 3/5)]).ts_buffer = [0, 3/5])
    ∧ ¬ ((3/5 : ℚ) - 0 ≤ 1/2) := by
  refine ⟨by norm_num, ?_, by norm_num⟩
  norm_num [runCycles, bufferUpdate, searchsorted, List.countP, List.countP.go]

/-- C2: the claim's concrete scenario holds (buffer duration 1.0, leading
timestamps `[0, 0.3, 0.6, 0.9, 1.2]` retain `[0.3, 0.6, 0.9, 1.2]`), but the
claimed threshold `latest - buffer_duration_seconds` is wrong for any other
duration: with buffer duration 2.0 and timestamps `[0, 1.2, 2.5]` the code
(hard-coded threshold `2.5 - 1.0`) retains only `[2.5]`, evicting the frame
at `1.2` even though it is within 2.0 seconds of the newest timestamp. -/
theorem C2_bug_eval :
    ((runCycles 1 [([[1]], 0), ([[2]], 3/10), ([[3]], 3/5), ([[4]], 9/10),
        ([[5]], 6/5)]).ts_buffer = [3/10, 3/5, 9/10, 6/5])
    ∧ ((runCycles 2 [([[1]], 0), ([[2]], 6/5), ([[3]], 5/2)]).ts_buffer = [5/2])
    ∧ ((runCycles 2 [([[1]], 0), ([[2]], 6/5), ([[3]], 5/2)]).psd_buffer = [[[3]]])
    ∧ ((5/2 : ℚ) - 6/5 ≤ 2) := by
  refine ⟨?_, ?_, ?_, by norm_num⟩ <;>
    norm_num [runCycles, bufferUpdate, searchsorted, List.countP, List.countP.go]

/-- C3: `get_prob_unread` returns `None` exactly when the probability-slot
value has already been consumed since the worker's last write: along any
sequence of writes and reads the `pread` flag coincides with the ghost
consumed flag, `get_prob_unread` answers `None` iff that flag is set, and in
the scenario write/read/read/write/read the three reads give value, `None`,
value. -/
theorem C3_unread_protocol (s : SharedState) (es : List RWEvent) (c : Bool) (p q : List ℚ)
    (h : s.pread = if c then 1 else 0) :
    ((runEvents s es).pread = if runConsumed c es then 1 else 0)
    ∧ ((daemonGetProbUnread (runEvents s es)).1 = Option.none ↔ runConsumed c es = true)
    ∧ ((daemonGetProbUnread (workerWriteProb p (runEvents s es))).1 = Option.some p)
    ∧ ((daemonGetProbUnread (daemonGetProbUnread (workerWriteProb p (runEvents s es))).2).1
        = Option.none)
    ∧ ((daemonGetProbUnread (workerWriteProb q
          (daemonGetProbUnread (workerWriteProb p (runEvents s es))).2)).1
        = Option.some q) := by
  have hp := pread_runEvents es s c h
  refine ⟨hp, ?_, ?_, ?_, ?_⟩
  · cases hc : runConsumed c es
    · rw [hc] at hp
      simp only [if_neg Bool.false_ne_true] at hp
      simp [daemonGetProbUnread, hp, daemonGetProb]
    · rw [hc] at hp
      simp only [if_pos rfl] at hp
      simp [daemonGetProbUnread, hp]
  · simp [daemonGetProbUnread, workerWriteProb, daemonGetProb]
  · simp [daemonGetProbUnread, workerWriteProb, daemonGetProb]
  · simp [daemonGetProbUnread, workerWriteProb, daemonGetProb]

/-- C3 witness: the unread protocol at a concrete post-reset state. -/
theorem C3_unread_protocol_witness :
    (daemonGetProbUnread (workerWriteProb [1, 0]
        (runEvents ⟨[1/2, 1/2], 1, 0, 0, Option.none⟩ []))).1 = Option.some [1, 0] :=
  (C3_unread_protocol ⟨[1/2, 1/2], 1, 0, 0, Option.none⟩ [] true [1, 0] [0, 1] rfl).2.2.1

/-- C4 counterexample: the claim says that in mock (fake) mode
`getFeatureFrame` still works — the worker clears the request flag within one
decode cycle and the populated slot is returned.  In fact in fake mode the
worker loop body never touches the request flag: one iteration leaves it set
and the slot unpopulated, so the reader's busy-poll never terminates. -/
theorem C4_counterexample :
    ((daemonLoopBody true [1/2, 1/2] Option.none
        ⟨[1/2, 1/2], 1, 1, 1, Option.none⟩).return_psd = 1)
    ∧ ((daemonLoopBody true [1/2, 1/2] Option.none
        ⟨[1/2, 1/2], 1, 1, 1, Option.none⟩).psd = Option.none)
    ∧ ¬ daemonGetPsdTerminates (daemonLoopBody true [1/2, 1/2] Option.none)
        ⟨[1/2, 1/2], 1, 1, 0, Option.none⟩ := by
  refine ⟨rfl, rfl, ?_⟩
  rintro ⟨n, hn⟩
  rw [daemonLoopBody_fake_iterate_return_psd] at hn
  exact absurd hn one_ne_zero

/-- C4 amended: the probability-slot contract of the worker loop is identical
in mock and real mode (publish the new vector, clear `pread`), but the
feature-frame contract is not: in real mode a pending request is served and
cleared within one iteration, while in fake mode the request flag survives
any number of iterations, so `getFeatureFrame` busy-polls forever. -/
theorem C4_amended (p d : List ℚ) (s : SharedState) (n : ℕ) (h : s.return_psd = 1) :
    ((daemonLoopBody true p (Option.some d) s).probs = p)
    ∧ ((daemonLoopBody true p (Option.some d) s).pread = 0)
    ∧ ((daemonLoopBody false p (Option.some d) s).probs = p)
    ∧ ((daemonLoopBody false p (Option.some d) s).pread = 0)
    ∧ (((daemonLoopBody true p (Option.some d))^[n] s).return_psd = 1)
    ∧ ((daemonLoopBody false p (Option.some d) s).return_psd = 0)
    ∧ ((daemonLoopBody false p (Option.some d) s).psd = Option.some d) := by
  refine ⟨rfl, rfl, ?_, ?_, ?_, ?_, ?_⟩
  · simp [daemonLoopBody, workerWriteProb, h]
  · simp [daemonLoopBody, workerWriteProb, h]
  · rw [daemonLoopBody_fake_iterate_return_psd]
    exact h
  · simp [daemonLoopBody, workerWriteProb, h]
  · simp [daemonLoopBody, workerWriteProb, h]

/-- C4 witness: the real-mode loop body serves a pending request at a
concrete state. -/
theorem C4_amended_witness :
    ((daemonLoopBody false [1, 0] (Option.some [5])
        ⟨[1/2, 1/2], 1, 1, 1, Option.none⟩).return_psd = 0)
    ∧ ((daemonLoopBody false [1, 0] (Option.some [5])
        ⟨[1/2, 1/2], 1, 1, 1, Option.none⟩).psd = Option.some [5]) :=
  ⟨(C4_amended [1, 0] [5] ⟨[1/2, 1/2], 1, 1, 1, Option.none⟩ 0 rfl).2.2.2.2.2.1,
   (C4_amended [1, 0] [5] ⟨[1/2, 1/2], 1, 1, 1, Option.none⟩ 0 rfl).2.2.2.2.2.2⟩

/-- C5: operational misuse is a logged no-op: `start()` on a running daemon
changes nothing but the log, `stop()` on a stopped daemon changes nothing but
the log, and two consecutive `stop()` calls from any state never error and
leave the running flag 0 after each call. -/
theorem C5_misuse_noop (s : DaemonState) (h : s.labels ≠ []) :
    ((daemonStart { s with shared := { s.shared with running := 1 } }).shared
        = { s.shared with running := 1 })
    ∧ ((daemonStart { s with shared := { s.shared with running := 1 } }).procStarted
        = s.procStarted)
    ∧ (∃ s1 s2, daemonStop { s with shared := { s.shared with running := 0 } } = .ok s1
        ∧ daemonStop s1 = .ok s2
        ∧ s1.shared = { s.shared with running := 0 } ∧ s1.procStarted = s.procStarted
        ∧ s2.shared = s1.shared ∧ s2.procStarted = s1.procStarted
        ∧ is_running s1 = 0 ∧ is_running s2 = 0)
    ∧ (∃ t1 t2, daemonStop s = .ok t1 ∧ daemonStop t1 = .ok t2
        ∧ is_running t1 = 0 ∧ is_running t2 = 0) := by
  refine ⟨?_, ?_, ?_, ?_⟩
  · simp [daemonStart]
  · simp [daemonStart]
  · exact ⟨_, _, rfl, rfl, rfl, rfl, rfl, rfl, rfl, rfl⟩
  · obtain ⟨t1, h1, hr1, hl1⟩ := daemonStop_ok s h
    obtain ⟨t2, h2, hr2, -⟩ := daemonStop_ok t1 (by rw [hl1]; exact h)
    exact ⟨t1, t2, h1, h2, hr1, hr2⟩

/-- C5 witness: misuse no-ops at a concrete daemon state. -/
theorem C5_misuse_noop_witness :
    (daemonStart { sampleDaemonState with
        shared := { sampleDaemonState.shared with running := 1 } }).procStarted
      = sampleDaemonState.procStarted :=
  (C5_misuse_noop sampleDaemonState (by simp [sampleDaemonState])).2.1

/-- C6 counterexample: the claim says a load-time error is raised iff
`round(sampling_rate * window_seconds)` differs from `window_frames`.  With
`sfreq = 250`, `w_seconds = 0.75`, `w_frames = 188` the rounded product is
exactly 188 — the claim says the model is accepted — yet the source's check
`int(self.sfreq * self.w_seconds) == self.w_frames` truncates `187.5` to
`187` and raises. -/
theorem C6_counterexample :
    (decoderLoadCheck ⟨250, 3/4, 188⟩ = .error .runtimeError)
    ∧ (specRoundCheckAccepts ⟨250, 3/4, 188⟩ = true) := by
  constructor
  · norm_num [decoderLoadCheck, pyInt]
  · norm_num [specRoundCheckAccepts, round_eq]

/-- C6 amended: the load-time check accepts a model iff the *truncated*
product `int(sfreq * w_seconds)` equals `w_frames` (truncation is `⌊·⌋` for
the nonnegative products that occur); the trainer computes `w_frames` with
the same truncation (trainer.py line 182). -/
theorem C6_amended (m : ModelFile) (h : 0 ≤ m.sfreq * m.w_seconds) :
    (decoderLoadCheck m = .ok () ↔ ⌊m.sfreq * m.w_seconds⌋ = m.w_frames)
    ∧ (decoderLoadCheck m = .error .runtimeError ↔ ¬ ⌊m.sfreq * m.w_seconds⌋ = m.w_frames) := by
  have hp : pyInt (m.sfreq * m.w_seconds) = ⌊m.sfreq * m.w_seconds⌋ := if_pos h
  unfold decoderLoadCheck
  rw [hp]
  by_cases he : ⌊m.sfreq * m.w_seconds⌋ = m.w_frames <;> simp [he]

/-- C6 witness: a model with the truncated product equal to `w_frames` is
accepted. -/
theorem C6_amended_witness :
    decoderLoadCheck ⟨250, 3/4, 187⟩ = .ok () :=
  ((C6_amended ⟨250, 3/4, 187⟩ (by norm_num)).1).mpr (by norm_num)

/-- C7: for every label list with at least two labels and every pseudo-random
draw `r ∈ [0, 1)`, the mock cycle returns a vector of the same length whose
head is `r` and whose remaining entries all equal exactly
`(1 - r) / (k - 1)`. -/
theorem C7_mock_distribution (labels : List ℤ) (r : ℚ)
    (hk : 2 ≤ labels.length) (h0 : 0 ≤ r) (h1 : r < 1) :
    ((fakeGetProb labels r).length = labels.length)
    ∧ ((fakeGetProb labels r).head? = Option.some r)
    ∧ (0 ≤ r ∧ r < 1)
    ∧ (∀ i : ℕ, 1 ≤ i → i < labels.length →
        (fakeGetProb labels r).getD i 0 = (1 - r) / ((labels.length : ℚ) - 1)) := by
  refine ⟨?_, rfl, ⟨h0, h1⟩, ?_⟩
  · simp only [fakeGetProb, List.length_cons, List.length_replicate]
    omega
  · intro i hi1 hi2
    obtain ⟨j, rfl⟩ : ∃ j, i = j + 1 := ⟨i - 1, by omega⟩
    have hj : j < labels.length - 1 := by omega
    simp [fakeGetProb, List.getD_cons_succ, List.getD_eq_getElem?_getD,
      List.getElem?_replicate, hj]

/-- C7 witness: with four labels and draw 1/3 the third entry equals
`(1 - 1/3) / 3` exactly. -/
theorem C7_mock_distribution_witness :
    (fakeGetProb [11, 9, 5, 3] (1/3)).getD 2 0
      = (1 - (1/3 : ℚ)) / ((([11, 9, 5, 3] : List ℤ).length : ℚ) - 1) :=
  (C7_mock_distribution [11, 9, 5, 3] (1/3) (by decide) (by norm_num) (by norm_num)).2.2.2 2
    (by decide) (by decide)

/-- C8 counterexample: the claim says requesting a feature frame before any
cycle has completed fails with a distinct reported BufferEmpty condition.  In
fact `get_psd` on the freshly constructed empty buffer performs unguarded
negative indexing and raises a plain `IndexError`, not the postulated
BufferEmpty condition. -/
theorem C8_counterexample :
    (decoderGetPsd ⟨[], []⟩ = .error .indexError)
    ∧ (decoderGetPsd ⟨[], []⟩ ≠ .error .bufferEmpty) := by
  refine ⟨rfl, ?_⟩
  intro hcontra
  simp [decoderGetPsd] at hcontra

/-- C8 amended: before any cycle, `get_psd` fails with a plain `IndexError`
(an unguarded crash, not a distinct reported condition); after at least one
cycle the newly appended frame is always the last buffered one and `get_psd`
returns it flattened to a single row. -/
theorem C8_amended (s : BufState) (buffer_sec ts0 : ℚ) (fr : Frame)
    (h : s.psd_buffer.length = s.ts_buffer.length) :
    (decoderGetPsd ⟨[], []⟩ = .error .indexError)
    ∧ ((bufferUpdate buffer_sec fr ts0 s).psd_buffer.getLast? = Option.some fr)
    ∧ (decoderGetPsd (bufferUpdate buffer_sec fr ts0 s) = .ok fr.flatten) := by
  have hl := bufferUpdate_getLast buffer_sec ts0 fr s h
  exact ⟨rfl, hl, by simp [decoderGetPsd, hl]⟩

/-- C8 witness: after one concrete cycle, `get_psd` returns the flattened
frame. -/
theorem C8_amended_witness :
    decoderGetPsd (bufferUpdate 1 [[7, 8]] 0 ⟨[], []⟩) = .ok [7, 8] :=
  (C8_amended ⟨[], []⟩ 1 0 [[7, 8]] rfl).2.2

/-- C9 counterexample: the claim says any caller-supplied label subset with
fewer than 2 labels fails fatally at construction time.  A one-element
`fake_dirs` list passes the only validation performed (`type(fake_dirs) is
list`) and the daemon constructs successfully. -/
theorem C9_counterexample :
    (daemonInitFake (fun _ => 11) (Option.some ["LEFT_GO"])).isOk = true := rfl

/-- C9 amended: a non-list `fake_dirs` raises `RuntimeError` at construction;
an empty list fails at construction only incidentally, with a
`ZeroDivisionError` while sizing the shared probability array; a one-element
list is not rejected at all — construction succeeds and any failure is
deferred to the worker at runtime. -/
theorem C9_amended (by_key : String → ℤ) (d : String) :
    (daemonInitFake by_key Option.none = .error .runtimeError)
    ∧ (daemonInitFake by_key (Option.some []) = .error .zeroDivisionError)
    ∧ ((daemonInitFake by_key (Option.some [d])).isOk = true) := by
  exact ⟨rfl, rfl, rfl⟩

/-- C10: the in-process `BCIDecoder.get_prob_unread` is exactly `get_prob`:
it runs a full decode cycle (updating the buffers in the real path, producing
the mock distribution in the fake path) and always returns a probability
vector, never `None` — so the `None`-based watchdog pattern distinguishes
nothing when applied to an in-process decoder. -/
theorem C10_unread_is_get_prob (fake : Bool) (labels : List ℤ) (r : ℚ) (frame : Frame)
    (ts0 : ℚ) (classify : List ℚ → List ℚ) (buffer_sec : ℚ) (s : BufState) :
    (decoderGetProbUnread fake labels r frame ts0 classify buffer_sec s
        = decoderGetProb fake labels r frame ts0 classify buffer_sec s)
    ∧ ((decoderGetProbUnread false labels r frame ts0 classify buffer_sec s).2
        = bufferUpdate buffer_sec frame ts0 s)
    ∧ ((decoderGetProbUnread false labels r frame ts0 classify buffer_sec s).1
        = classify frame.flatten)
    ∧ ((decoderGetProbUnread true labels r frame ts0 classify buffer_sec s).1
        = fakeGetProb labels r)
    ∧ (Option.some (decoderGetProbUnread fake labels r frame ts0 classify buffer_sec s).1
        ≠ Option.none) := by
  refine ⟨rfl, rfl, rfl, rfl, ?_⟩
  simp

end PyCNBI
